import Mathlib

/-!
Shallow embedding of the resilient payment client of this repository
(`lib/payment_client.py`) and of the async reference handler
(`payment_handler.py`), together with theorems about the retry loop,
the circuit breaker and the backoff policy.

Conventions of the embedding:
* Wall-clock instants and durations are rationals (seconds), passed
  explicitly where the Python code calls `time.time()` / `time.sleep`.
* Python attributes that a constructor branch may leave unassigned are
  modelled with `PyAttr`; reading an `unset` attribute is an
  `AttributeError`.  Python truthiness of `last_failure_time`
  (`None` and `0` are falsy) is modelled explicitly.
* The transport (`requests.post`) is abstracted as a stream of per-attempt
  outcomes `ℕ → HttpOutcome`; `random.uniform(0, jitter_ms / 1000)` is
  abstracted as a stream of jitter draws, constrained in theorems to lie in
  `[0, jitter_ms / 1000]`.
* Operations that can raise return `Except`; a failing `recordFailure`
  carries the partially mutated object alongside the error, as a Python
  exception leaves earlier attribute writes in place.
-/

namespace PaymentRepo

/-- A Python attribute that may never have been assigned. -/
inductive PyAttr (α : Type) where
  | unset
  | set (v : α)
deriving DecidableEq, Repr

/-- Exceptions that can escape the modelled code. -/
inductive PyError where
  | attributeError
  | timeoutError        -- `raise TimeoutError(...)` on the final timed-out attempt
  | connectionReset     -- `raise Exception("Connection reset by peer")`
  | unexpectedError     -- re-raise of an unexpected transport exception
deriving DecidableEq, Repr

/-- `self.circuit_state` of `PaymentClient`: one of the strings
`'CLOSED' | 'OPEN' | 'HALF_OPEN'`. -/
inductive CircuitState where
  | CLOSED
  | OPEN
  | HALF_OPEN
deriving DecidableEq, Repr

/-- `payment_config['circuit_breaker']`: the dict with keys
`failure_threshold` and `recovery_timeout_ms`. -/
structure BreakerConfig where
  failure_threshold : ℕ
  recovery_timeout_ms : ℚ
deriving DecidableEq, Repr

/-- The mutable attributes of a `PaymentClient` instance
(`lib/payment_client.py`, `__init__`).  `timeout`, `base_retry_delay` are in
seconds as in the source (`timeout_ms / 1000`, `retry_delay_ms / 1000`).
`circuit_breaker_config` and `last_failure_time` use `PyAttr` because the
fallback branch of `__init__` never assigns them; an assigned
`last_failure_time` holds `none` for Python `None` or `some t` for a float. -/
structure ClientState where
  timeout : ℚ
  max_retries : ℕ
  base_retry_delay : ℚ
  backoff_multiplier : ℚ
  jitter_ms : ℚ
  circuit_breaker_config : PyAttr BreakerConfig
  failure_count : ℕ
  last_failure_time : PyAttr (Option ℚ)
  circuit_state : CircuitState
deriving DecidableEq, Repr

/-- The success branch of `PaymentClient.__init__` (config file loaded):
all attributes assigned, breaker config present, state CLOSED. -/
def initFromConfig (timeout_ms : ℚ) (max_retries : ℕ) (retry_delay_ms : ℚ)
    (retry_backoff_multiplier : ℚ) (retry_jitter_ms : ℚ)
    (circuit_breaker : BreakerConfig) : ClientState :=
  { timeout := timeout_ms / 1000
    max_retries := max_retries
    base_retry_delay := retry_delay_ms / 1000
    backoff_multiplier := retry_backoff_multiplier
    jitter_ms := retry_jitter_ms
    circuit_breaker_config := .set circuit_breaker
    failure_count := 0
    last_failure_time := .set none
    circuit_state := .CLOSED }

/-- The `except` fallback branch of `PaymentClient.__init__` (config load
failed): `timeout = 20`, `max_retries = 3`, `base_retry_delay = 2`,
`backoff_multiplier = 2.0`, `jitter_ms = 500`, `failure_count = 0`,
`circuit_state = 'CLOSED'`; the attributes `circuit_breaker_config` and
`last_failure_time` are never assigned. -/
def initFallback : ClientState :=
  { timeout := 20
    max_retries := 3
    base_retry_delay := 2
    backoff_multiplier := 2
    jitter_ms := 500
    circuit_breaker_config := .unset
    failure_count := 0
    last_failure_time := .unset
    circuit_state := .CLOSED }

/-- `PaymentClient._is_circuit_open(self)`, with `time.time()` passed as
`now`.  Mirrors the Python truthiness test `if (self.last_failure_time and
time.time() - self.last_failure_time > ... recovery_timeout_ms ... / 1000)`:
an unassigned `last_failure_time` raises `AttributeError`; `None` and `0.0`
are falsy and short-circuit before `circuit_breaker_config` is read.
Returns the boolean result together with the (possibly transitioned)
state. -/
def isCircuitOpen (s : ClientState) (now : ℚ) : Except PyError (Bool × ClientState) :=
  match s.circuit_state with
  | .CLOSED => .ok (false, s)
  | .OPEN =>
    match s.last_failure_time with
    | .unset => .error .attributeError
    | .set none => .ok (true, s)
    | .set (some t) =>
      if t = 0 then .ok (true, s)
      else
        match s.circuit_breaker_config with
        | .unset => .error .attributeError
        | .set cfg =>
          if now - t > cfg.recovery_timeout_ms / 1000 then
            .ok (false, { s with circuit_state := .HALF_OPEN })
          else
            .ok (true, s)
  | .HALF_OPEN => .ok (false, s)

/-- `PaymentClient._record_success(self)`: state to CLOSED, counter to 0,
`last_failure_time = None`. -/
def recordSuccess (s : ClientState) : ClientState :=
  { s with circuit_state := .CLOSED
           failure_count := 0
           last_failure_time := .set none }

/-- `PaymentClient._record_failure(self)`, with `time.time()` passed as
`now`.  Increments the counter and stamps `last_failure_time` first; the
subsequent read of `self.circuit_breaker_config['failure_threshold']`
raises `AttributeError` when the attribute was never assigned, and the
error carries the partially mutated object (Python exceptions do not roll
back the earlier attribute writes). -/
def recordFailure (s : ClientState) (now : ℚ) :
    Except (PyError × ClientState) ClientState :=
  let s1 := { s with failure_count := s.failure_count + 1
                     last_failure_time := .set (some now) }
  match s1.circuit_breaker_config with
  | .unset => .error (.attributeError, s1)
  | .set cfg =>
    if s1.failure_count ≥ cfg.failure_threshold ∧ s1.circuit_state = .CLOSED then
      .ok { s1 with circuit_state := .OPEN }
    else if s1.circuit_state = .HALF_OPEN then
      .ok { s1 with circuit_state := .OPEN }
    else
      .ok s1

/-- `PaymentClient._calculate_retry_delay(self, attempt)`:
`base_retry_delay * backoff_multiplier ** attempt` plus the jitter draw
`random.uniform(0, jitter_ms / 1000)`, the draw passed in explicitly. -/
def calculateRetryDelay (s : ClientState) (attempt : ℕ) (jitterDraw : ℚ) : ℚ :=
  s.base_retry_delay * s.backoff_multiplier ^ attempt + jitterDraw

/-- Per-attempt result of the abstracted transport call
`requests.post(url, json=payload, headers=headers, timeout=self.timeout)`:
a response with a status code and body text, a
`requests.exceptions.Timeout`, a `requests.exceptions.ConnectionError`,
or any other (unexpected) exception. -/
inductive HttpOutcome where
  | status (code : ℕ) (body : String)
  | timeout
  | connError
  | otherExn
deriving DecidableEq, Repr

/-- Whether a transport outcome is an HTTP response (of any status). -/
def HttpOutcome.isStatus : HttpOutcome → Bool
  | .status _ _ => true
  | _ => false

/-- What `charge` / `_make_request` delivers to its caller: the parsed
success body (`response.json()`), one of the `{'status': 'error', ...}`
dicts, or a propagated exception. -/
inductive ChargeOutcome where
  | ok (body : String)
  | errorDict (msg : String)
  | raised (e : PyError)
deriving DecidableEq, Repr

/-- Whether the outcome is a propagated exception. -/
def ChargeOutcome.isRaised : ChargeOutcome → Bool
  | .raised _ => true
  | _ => false

/-- The error string `f"HTTP {response.status_code}: {response.text}"`. -/
def httpErrorMsg (code : ℕ) (body : String) : String :=
  "HTTP " ++ toString code ++ ": " ++ body

/-- The dict returned by `charge` when the breaker rejects the call. -/
def circuitOpenMsg : String :=
  "Payment service temporarily unavailable (circuit breaker open)"

/-- The dict returned by `_make_request` when the loop exhausts. -/
def maxRetriesMsg : String := "Max retries exceeded"

/-- Observable result of a `charge` run: the delivered outcome, the final
state of the client object, the number of transport calls performed, the
number of completed `_record_failure` calls, and the list of
`time.sleep` durations in order. -/
structure RunResult where
  outcome : ChargeOutcome
  state : ClientState
  attempts : ℕ
  failuresRecorded : ℕ
  sleeps : List ℚ
deriving DecidableEq, Repr

/-- The `for attempt in range(self.max_retries)` loop of
`PaymentClient._make_request`.  `remaining + 1` is the number of loop
iterations still to run, so inside an iteration `remaining = 0` is the
source's `attempt == self.max_retries - 1` (final attempt) and
`1 ≤ remaining` is `attempt < self.max_retries - 1`.  `tms attempt` is the
`time.time()` stamp of a failure in that iteration and `jitters attempt`
the jitter draw of that iteration's `_calculate_retry_delay`.

Branches, as in the source:
* status 200: `_record_success()`, return the parsed body;
* status 429: sleep `_calculate_retry_delay(attempt)` unless this is the
  final attempt, then `continue` (no breaker interaction, no return —
  an exhausted-429 run falls through to "Max retries exceeded");
* other status: `_record_failure()` then return the HTTP error dict; if
  `_record_failure` raises, the generic `except Exception` handler calls
  `_record_failure()` again, whose exception propagates;
* timeout / connection error: `_record_failure()` (whose exception, if
  any, propagates out of the handler); on the final attempt raise
  (`TimeoutError` / `Exception("Connection reset by peer")`), otherwise
  sleep the backoff delay and continue;
* unexpected exception: `_record_failure()` then re-raise. -/
def makeRequestLoop (outcomes : ℕ → HttpOutcome) (tms jitters : ℕ → ℚ) :
    ℕ → ℕ → ClientState → RunResult
  | 0, _, s => ⟨.errorDict maxRetriesMsg, s, 0, 0, []⟩
  | remaining + 1, attempt, s =>
    match outcomes attempt with
    | .status code body =>
      if code = 200 then
        ⟨.ok body, recordSuccess s, 1, 0, []⟩
      else if code = 429 then
        if 1 ≤ remaining then
          let d := calculateRetryDelay s attempt (jitters attempt)
          let r := makeRequestLoop outcomes tms jitters remaining (attempt + 1) s
          ⟨r.outcome, r.state, r.attempts + 1, r.failuresRecorded, d :: r.sleeps⟩
        else
          let r := makeRequestLoop outcomes tms jitters remaining (attempt + 1) s
          ⟨r.outcome, r.state, r.attempts + 1, r.failuresRecorded, r.sleeps⟩
      else
        match recordFailure s (tms attempt) with
        | .ok s1 => ⟨.errorDict (httpErrorMsg code body), s1, 1, 1, []⟩
        | .error (e, s1) =>
          match recordFailure s1 (tms attempt) with
          | .ok s2 => ⟨.raised e, s2, 1, 1, []⟩
          | .error (e2, s2) => ⟨.raised e2, s2, 1, 0, []⟩
    | .timeout =>
      match recordFailure s (tms attempt) with
      | .ok s1 =>
        if remaining = 0 then
          ⟨.raised .timeoutError, s1, 1, 1, []⟩
        else
          let d := calculateRetryDelay s1 attempt (jitters attempt)
          let r := makeRequestLoop outcomes tms jitters remaining (attempt + 1) s1
          ⟨r.outcome, r.state, r.attempts + 1, r.failuresRecorded + 1, d :: r.sleeps⟩
      | .error (e, s1) => ⟨.raised e, s1, 1, 0, []⟩
    | .connError =>
      match recordFailure s (tms attempt) with
      | .ok s1 =>
        if remaining = 0 then
          ⟨.raised .connectionReset, s1, 1, 1, []⟩
        else
          let d := calculateRetryDelay s1 attempt (jitters attempt)
          let r := makeRequestLoop outcomes tms jitters remaining (attempt + 1) s1
          ⟨r.outcome, r.state, r.attempts + 1, r.failuresRecorded + 1, d :: r.sleeps⟩
      | .error (e, s1) => ⟨.raised e, s1, 1, 0, []⟩
    | .otherExn =>
      match recordFailure s (tms attempt) with
      | .ok s1 => ⟨.raised .unexpectedError, s1, 1, 1, []⟩
      | .error (e, s1) => ⟨.raised e, s1, 1, 0, []⟩

/-- `PaymentClient.charge`: consult `_is_circuit_open` (its exception, if
any, propagates); when open, return the circuit-open error dict with no
transport call; otherwise run `_make_request`'s attempt loop. -/
def charge (s : ClientState) (now : ℚ) (outcomes : ℕ → HttpOutcome)
    (tms jitters : ℕ → ℚ) : RunResult :=
  match isCircuitOpen s now with
  | .error e => ⟨.raised e, s, 0, 0, []⟩
  | .ok (true, s1) => ⟨.errorDict circuitOpenMsg, s1, 0, 0, []⟩
  | .ok (false, s1) =>
    makeRequestLoop outcomes tms jitters s1.max_retries 0 s1

/-- `n` consecutive `_record_failure` calls, the `k`-th at time `tms k`,
with no intervening success; stops at the first raised exception. -/
def recordFailures (tms : ℕ → ℚ) : ℕ → ClientState →
    Except (PyError × ClientState) ClientState
  | 0, s => .ok s
  | n + 1, s =>
    match recordFailures tms n s with
    | .ok s1 => recordFailure s1 (tms n)
    | .error e => .error e

/-- The defaults dict that `PaymentHandler._load_config`
(`src/payment_handler.py` of the handler package) returns when the config
file is missing: only `timeout_ms`, `retry_attempts` and `retry_delay_ms`
under the `payment_service` key — no multiplier, jitter or breaker
values. -/
structure HandlerDefaultConfig where
  timeout_ms : ℚ
  retry_attempts : ℕ
  retry_delay_ms : ℚ
deriving DecidableEq, Repr

/-- The literal fallback returned on `FileNotFoundError`. -/
def handlerLoadConfigDefaults : HandlerDefaultConfig :=
  { timeout_ms := 30000, retry_attempts := 3, retry_delay_ms := 1000 }

/-! ### The async reference handler (`payment_handler.py`)

A second, duplicated breaker lives in the async `PaymentHandler`.  Its
rejection path differs from the client's: an open breaker makes
`process_payment` raise an internal exception that its own generic
`except Exception` handler catches, which then calls `_record_failure()`
before returning a failed result. -/

/-- The breaker attributes of the async `PaymentHandler.__init__`. -/
structure HandlerState where
  circuit_breaker_threshold : ℕ
  circuit_breaker_reset_time : ℚ
  failure_count : ℕ
  last_failure_time : ℚ
  circuit_open : Bool
deriving DecidableEq, Repr

/-- `PaymentHandler._is_circuit_open`: when open, closes the breaker once
`circuit_breaker_reset_time` has strictly elapsed since the last failure. -/
def handlerIsCircuitOpen (s : HandlerState) (now : ℚ) : Bool × HandlerState :=
  if s.circuit_open = false then (false, s)
  else if now - s.last_failure_time > s.circuit_breaker_reset_time then
    (false, { s with circuit_open := false })
  else
    (true, s)

/-- `PaymentHandler._record_failure`. -/
def handlerRecordFailure (s : HandlerState) (now : ℚ) : HandlerState :=
  let s1 := { s with failure_count := s.failure_count + 1
                     last_failure_time := now }
  if s1.failure_count ≥ s1.circuit_breaker_threshold then
    { s1 with circuit_open := true }
  else
    s1

/-- `PaymentHandler._reset_circuit_breaker`: resets only when the counter
is positive. -/
def handlerResetCircuitBreaker (s : HandlerState) : HandlerState :=
  if s.failure_count > 0 then
    { s with failure_count := 0, circuit_open := false }
  else
    s

/-- Outcome of the awaited `_execute_payment` body (or its timeout). -/
inductive ExecOutcome where
  | success (paymentId : String)
  | failure (msg : String)
  | timedOut
deriving DecidableEq, Repr

/-- The `PaymentStatus` values `process_payment` can produce. -/
inductive PHStatus where
  | COMPLETED
  | FAILED
  | TIMEOUT
deriving DecidableEq, Repr

/-- The fields of the returned `PaymentResult` that the embedding tracks. -/
structure PHResult where
  success : Bool
  status : PHStatus
  message : String
  error_code : Option String
deriving DecidableEq, Repr

/-- `PaymentHandler.process_payment`, abstracted over the execute outcome;
also returns the new handler state and how many `_execute_payment` calls
ran.  When the breaker is open, the raised internal exception is caught by
`except Exception`, which records a failure before returning the failed
result — zero execute calls, but mutated breaker attributes. -/
def processPayment (s : HandlerState) (now : ℚ) (exec : ExecOutcome) :
    PHResult × HandlerState × ℕ :=
  match handlerIsCircuitOpen s now with
  | (true, s1) =>
    let s2 := handlerRecordFailure s1 now
    (⟨false, .FAILED,
      "Payment service temporarily unavailable (circuit breaker open)",
      some "PAYMENT_ERROR"⟩, s2, 0)
  | (false, s1) =>
    match exec with
    | .success _ =>
      (⟨true, .COMPLETED, "Payment processed successfully", none⟩,
       handlerResetCircuitBreaker s1, 1)
    | .timedOut =>
      (⟨false, .TIMEOUT, "Payment processing timeout", some "PAYMENT_TIMEOUT"⟩,
       handlerRecordFailure s1 now, 1)
    | .failure msg =>
      (⟨false, .FAILED, msg, some "PAYMENT_ERROR"⟩,
       handlerRecordFailure s1 now, 1)

/-! ### Concrete instances used by witnesses and counterexamples -/

/-- A client loaded with the repository's shipped configuration values
(`timeout_ms = 20000`, `max_retries = 3`, `retry_delay_ms = 2000`,
multiplier 2, jitter 500 ms, breaker threshold 5, recovery 60000 ms),
written with the divisions by 1000 already performed. -/
def exampleClient : ClientState :=
  { timeout := 20
    max_retries := 3
    base_retry_delay := 2
    backoff_multiplier := 2
    jitter_ms := 500
    circuit_breaker_config := .set ⟨5, 60000⟩
    failure_count := 0
    last_failure_time := .set none
    circuit_state := .CLOSED }

/-- `exampleClient` after its breaker tripped at time 10 with a 5000 ms
recovery timeout. -/
def exampleOpenClient : ClientState :=
  { exampleClient with
      circuit_state := .OPEN
      last_failure_time := .set (some 10)
      circuit_breaker_config := .set ⟨5, 5000⟩ }

/-! ### Helper lemmas -/

/-- With the breaker config assigned, `_record_failure` completes and
performs exactly the source's update. -/
theorem recordFailure_ok (s : ClientState) (cfg : BreakerConfig) (now : ℚ)
    (h : s.circuit_breaker_config = .set cfg) :
    recordFailure s now = .ok
      { s with failure_count := s.failure_count + 1
               last_failure_time := .set (some now)
               circuit_state :=
                 if s.failure_count + 1 ≥ cfg.failure_threshold ∧
                     s.circuit_state = .CLOSED then .OPEN
                 else if s.circuit_state = .HALF_OPEN then .OPEN
                 else s.circuit_state } := by
  unfold recordFailure
  simp only [h]
  split
  · simp_all
  · split <;> simp_all

/-- `recordFailure` preserves an assigned breaker config. -/
theorem recordFailure_preserves_config (s s' : ClientState) (cfg : BreakerConfig)
    (now : ℚ) (h : s.circuit_breaker_config = .set cfg)
    (hok : recordFailure s now = .ok s') :
    s'.circuit_breaker_config = .set cfg := by
  rw [recordFailure_ok s cfg now h] at hok
  cases hok
  simpa using h

/-! ### C4 — configuration fallback defaults -/

/-- C4 (counterexample): the effective fallback values are not the
documented safe defaults.  `PaymentClient.__init__`'s fallback sets a
20000 ms timeout (not 30000 ms) and 500 ms jitter (not 0 ms), and assigns
no breaker config at all (so no failure threshold 5 and no recovery
timeout 60000 ms). -/
theorem fallback_defaults_not_documented_defaults :
    initFallback.timeout * 1000 ≠ 30000 ∧
    initFallback.jitter_ms ≠ 0 ∧
    initFallback.circuit_breaker_config = .unset := by
  refine ⟨?_, ?_, rfl⟩ <;> norm_num [initFallback]

/-- C4 (amended): construction through the fallback branch succeeds
(`initFallback` is a total value, startup does not fail) and the effective
policy values are a 20000 ms timeout, 3 attempts, 2000 ms base delay,
multiplier 2.0 and 500 ms jitter, with the breaker config and
last-failure-time attributes left unassigned; the handler-level
`_load_config` fallback supplies 30000 ms / 3 attempts / 1000 ms only,
with no multiplier, jitter, threshold or recovery values. -/
theorem fallback_defaults_actual_values :
    initFallback.timeout * 1000 = 20000 ∧
    initFallback.max_retries = 3 ∧
    initFallback.base_retry_delay * 1000 = 2000 ∧
    initFallback.backoff_multiplier = 2 ∧
    initFallback.jitter_ms = 500 ∧
    initFallback.circuit_breaker_config = .unset ∧
    initFallback.last_failure_time = .unset ∧
    initFallback.circuit_state = .CLOSED ∧
    handlerLoadConfigDefaults = ⟨30000, 3, 1000⟩ := by
  refine ⟨?_, rfl, ?_, rfl, rfl, rfl, rfl, rfl, rfl⟩ <;> norm_num [initFallback]

/-! ### C10 — the fallback instance's non-total failure path -/

/-- C10: a `PaymentClient` built through the config-load-failure fallback
branch never assigns `circuit_breaker_config` or `last_failure_time`, and
its first `_record_failure` — reached from any timeout, connection error
or non-success, non-429 HTTP response during `charge` — raises
`AttributeError` at the `self.circuit_breaker_config['failure_threshold']`
read, so the breaker never transitions (the error carries the object with
`circuit_state` still CLOSED; only the counter increment and timestamp
write before the faulting read took effect). -/
theorem fallback_record_failure_attribute_error :
    initFallback.circuit_breaker_config = .unset ∧
    initFallback.last_failure_time = .unset ∧
    (∀ now : ℚ, recordFailure initFallback now =
      .error (.attributeError,
        { initFallback with failure_count := 1
                            last_failure_time := .set (some now) })) ∧
    (∀ (now : ℚ) (tms jitters : ℕ → ℚ),
      (charge initFallback now (fun _ => .timeout) tms jitters).outcome =
        .raised .attributeError) := by
  refine ⟨rfl, rfl, fun now => ?_, fun now tms jitters => ?_⟩
  · simp [recordFailure, initFallback]
  · simp [charge, isCircuitOpen, initFallback, makeRequestLoop, recordFailure]

/-! ### C8 — HALF_OPEN transitions -/

/-- C8: from HALF_OPEN, one `_record_success` yields CLOSED with the
consecutive-failure counter 0, and one `_record_failure` yields OPEN with
`last_failure_time` stamped with the failure's own time `now` (replacing
the original trip time). -/
theorem half_open_single_event_transitions (s : ClientState) (cfg : BreakerConfig)
    (now : ℚ) (hs : s.circuit_state = .HALF_OPEN)
    (hc : s.circuit_breaker_config = .set cfg) :
    (recordSuccess s).circuit_state = .CLOSED ∧
    (recordSuccess s).failure_count = 0 ∧
    recordFailure s now = .ok
      { s with failure_count := s.failure_count + 1
               last_failure_time := .set (some now)
               circuit_state := .OPEN } := by
  refine ⟨rfl, rfl, ?_⟩
  rw [recordFailure_ok s cfg now hc]
  simp [hs]

/-- C8 witness: a concrete HALF_OPEN client; the failure at time 42
re-opens the breaker with trip time 42, and a success closes it. -/
theorem half_open_single_event_transitions_witness :
    (recordSuccess { exampleOpenClient with circuit_state := .HALF_OPEN }).circuit_state
        = .CLOSED ∧
    (recordSuccess { exampleOpenClient with circuit_state := .HALF_OPEN }).failure_count
        = 0 ∧
    recordFailure { exampleOpenClient with circuit_state := .HALF_OPEN } 42 = .ok
      { exampleOpenClient with failure_count := 1
                               last_failure_time := .set (some 42)
                               circuit_state := .OPEN } :=
  half_open_single_event_transitions
    { exampleOpenClient with circuit_state := .HALF_OPEN } ⟨5, 5000⟩ 42 rfl rfl

/-! ### C9 — backoff policy -/

/-- C9: for every attempt `a` and every admissible jitter draw, the retry
delay equals `base_retry_delay * backoff_multiplier ^ a` plus the draw, is
never negative, and `delay(a+1) ≥ backoff_multiplier * (delay(a) - jitterMax)`
for all draws, given a positive base delay, multiplier ≥ 1 and
`jitterMax = jitter_ms / 1000 ≥ 0`. -/
theorem backoff_delay_properties (s : ClientState) (a : ℕ) (j j' : ℚ)
    (hbase : 0 < s.base_retry_delay) (hmult : 1 ≤ s.backoff_multiplier)
    (hj0 : 0 ≤ j) (hj1 : j ≤ s.jitter_ms / 1000)
    (hj0' : 0 ≤ j') (hj1' : j' ≤ s.jitter_ms / 1000) :
    calculateRetryDelay s a j = s.base_retry_delay * s.backoff_multiplier ^ a + j ∧
    0 ≤ calculateRetryDelay s a j ∧
    s.backoff_multiplier * (calculateRetryDelay s a j - s.jitter_ms / 1000) ≤
      calculateRetryDelay s (a + 1) j' := by
  have hm0 : (0 : ℚ) < s.backoff_multiplier := lt_of_lt_of_le one_pos hmult
  have hpa : (0 : ℚ) < s.backoff_multiplier ^ a := pow_pos hm0 a
  refine ⟨rfl, ?_, ?_⟩
  · have : 0 ≤ s.base_retry_delay * s.backoff_multiplier ^ a :=
      mul_nonneg hbase.le hpa.le
    unfold calculateRetryDelay
    linarith
  · unfold calculateRetryDelay
    rw [pow_succ]
    nlinarith [mul_nonneg hbase.le hpa.le]

/-- C9 witness: the shipped values (base 2 s, multiplier 2, jitter max
0.5 s) at attempt 0 with draws 0.25 and 0. -/
theorem backoff_delay_properties_witness :
    calculateRetryDelay exampleClient 0 (1/4) =
      exampleClient.base_retry_delay * exampleClient.backoff_multiplier ^ 0 + 1/4 ∧
    0 ≤ calculateRetryDelay exampleClient 0 (1/4) ∧
    exampleClient.backoff_multiplier *
        (calculateRetryDelay exampleClient 0 (1/4) - exampleClient.jitter_ms / 1000) ≤
      calculateRetryDelay exampleClient 1 0 :=
  backoff_delay_properties exampleClient 0 (1/4) 0
    (by norm_num [exampleClient]) (by norm_num [exampleClient])
    (by norm_num) (by norm_num [exampleClient])
    (by norm_num) (by norm_num [exampleClient])

/-! ### C7 — OPEN recovery boundary -/

/-- C7 (counterexample): a breaker tripped at `T = 10` with recovery
timeout 5000 ms, probed exactly at `T + r = 15`: the claim demands the
first call at-or-after `T + r` to transition to HALF_OPEN and be allowed,
but `_is_circuit_open` uses a strict `>` comparison and still reports the
circuit open, mutating nothing. -/
theorem recovery_boundary_counterexample :
    isCircuitOpen exampleOpenClient 15 = .ok (true, exampleOpenClient) ∧
    (15 : ℚ) = 10 + 5000 / 1000 := by
  constructor
  · norm_num [isCircuitOpen, exampleOpenClient, exampleClient]
  · norm_num

/-- C7 (amended): for a breaker OPEN with nonzero trip time `T` and
recovery timeout `r = recovery_timeout_ms / 1000`, the permission check
reports the circuit open (call rejected) at every time at-or-before
`T + r` without mutating state, and the first check strictly after `T + r`
transitions the breaker to HALF_OPEN and allows the call.  (A trip time of
exactly 0 would be Python-falsy and reject forever.) -/
theorem recovery_strictly_after_transition (s : ClientState) (cfg : BreakerConfig)
    (T now : ℚ) (hs : s.circuit_state = .OPEN)
    (hl : s.last_failure_time = .set (some T))
    (hc : s.circuit_breaker_config = .set cfg) (hT : T ≠ 0) :
    (now - T ≤ cfg.recovery_timeout_ms / 1000 →
      isCircuitOpen s now = .ok (true, s)) ∧
    (cfg.recovery_timeout_ms / 1000 < now - T →
      isCircuitOpen s now = .ok (false, { s with circuit_state := .HALF_OPEN })) := by
  constructor <;> intro hnow
  · simp [isCircuitOpen, hs, hl, hc, hT, not_lt.mpr hnow]
  · simp [isCircuitOpen, hs, hl, hc, hT, hnow]

/-- C7 witness: the tripped-at-10, 5-second-recovery breaker is still
reported open at time 14 and transitions to HALF_OPEN at time 16. -/
theorem recovery_strictly_after_transition_witness :
    isCircuitOpen exampleOpenClient 14 = .ok (true, exampleOpenClient) ∧
    isCircuitOpen exampleOpenClient 16 =
      .ok (false, { exampleOpenClient with circuit_state := .HALF_OPEN }) :=
  ⟨(recovery_strictly_after_transition exampleOpenClient ⟨5, 5000⟩ 10 14
      rfl rfl rfl (by norm_num)).1 (by norm_num),
   (recovery_strictly_after_transition exampleOpenClient ⟨5, 5000⟩ 10 16
      rfl rfl rfl (by norm_num)).2 (by norm_num)⟩

/-! ### C3 — rejection while OPEN -/

/-- While OPEN with trip time `T` and `now - T` within the recovery
timeout, the permission check reports open without mutating anything
(including for a Python-falsy trip time 0, which short-circuits). -/
theorem isCircuitOpen_open_before (s : ClientState) (cfg : BreakerConfig)
    (T now : ℚ) (hs : s.circuit_state = .OPEN)
    (hl : s.last_failure_time = .set (some T))
    (hc : s.circuit_breaker_config = .set cfg)
    (hnow : now - T ≤ cfg.recovery_timeout_ms / 1000) :
    isCircuitOpen s now = .ok (true, s) := by
  rcases eq_or_ne T 0 with hT | hT
  · simp [isCircuitOpen, hs, hl, hc, hT]
  · simp [isCircuitOpen, hs, hl, hc, hT, not_lt.mpr hnow]

/-- In the async handler, a call rejected by the open breaker lands in the
generic exception handler, which records a failure before returning. -/
theorem processPayment_rejected (h : HandlerState) (now : ℚ) (ex : ExecOutcome)
    (hop : h.circuit_open = true)
    (hbefore : now - h.last_failure_time ≤ h.circuit_breaker_reset_time) :
    processPayment h now ex =
      (⟨false, .FAILED,
        "Payment service temporarily unavailable (circuit breaker open)",
        some "PAYMENT_ERROR"⟩, handlerRecordFailure h now, 0) := by
  have hrej : handlerIsCircuitOpen h now = (true, h) := by
    simp [handlerIsCircuitOpen, hop, not_lt.mpr hbefore]
  unfold processPayment
  rw [hrej]

/-- The async handler's `_record_failure` always increments the counter
and restamps the last-failure time. -/
theorem handlerRecordFailure_fields (h : HandlerState) (now : ℚ) :
    (handlerRecordFailure h now).failure_count = h.failure_count + 1 ∧
    (handlerRecordFailure h now).last_failure_time = now := by
  constructor <;>
  · simp only [handlerRecordFailure]
    split <;> rfl

/-- C3 (counterexample): in the cited `PaymentHandler.process_payment`
(the async duplicate), a call arriving while the breaker is open and
before the reset window has elapsed (trip time 100, reset 60 s, call at
120) performs zero execute attempts but does mutate the breaker state:
the internal circuit-open exception lands in the generic handler, which
records a failure — the counter goes 5 → 6 and the last-failure time is
reset from 100 to 120, contradicting "no mutation of the breaker state". -/
theorem open_rejection_mutates_handler_counterexample :
    processPayment ⟨5, 60, 5, 100, true⟩ 120 (.success "p") =
      (⟨false, .FAILED,
        "Payment service temporarily unavailable (circuit breaker open)",
        some "PAYMENT_ERROR"⟩, ⟨5, 60, 6, 120, true⟩, 0) ∧
    (120 : ℚ) - 100 ≤ 60 := by
  constructor
  · norm_num [processPayment, handlerIsCircuitOpen, handlerRecordFailure]
  · norm_num

/-- C3 (amended): for `PaymentClient.charge` the claim holds exactly —
while OPEN before the recovery window elapses every call is rejected with
the circuit-open failure, performs zero network attempts, records no
failure and leaves the entire client state unchanged, for arbitrarily many
repeated calls.  In the async `PaymentHandler` duplicate, by contrast,
every such rejected call still performs zero execute attempts but records
a breaker failure, incrementing the counter and resetting the
last-failure time. -/
theorem open_rejection_client_no_mutation (s : ClientState) (cfg : BreakerConfig)
    (T now : ℚ) (outcomes : ℕ → HttpOutcome) (tms jitters : ℕ → ℚ)
    (hs : s.circuit_state = .OPEN)
    (hl : s.last_failure_time = .set (some T))
    (hc : s.circuit_breaker_config = .set cfg)
    (hnow : now - T ≤ cfg.recovery_timeout_ms / 1000) :
    charge s now outcomes tms jitters =
      ⟨.errorDict circuitOpenMsg, s, 0, 0, []⟩ ∧
    (∀ n : ℕ, (fun st => (charge st now outcomes tms jitters).state)^[n] s = s) ∧
    (∀ (h : HandlerState) (now' : ℚ) (ex : ExecOutcome),
      h.circuit_open = true → now' - h.last_failure_time ≤ h.circuit_breaker_reset_time →
      (processPayment h now' ex).2.2 = 0 ∧
      (processPayment h now' ex).2.1.failure_count = h.failure_count + 1 ∧
      (processPayment h now' ex).2.1.last_failure_time = now') := by
  have hopen := isCircuitOpen_open_before s cfg T now hs hl hc hnow
  have hcharge : charge s now outcomes tms jitters =
      ⟨.errorDict circuitOpenMsg, s, 0, 0, []⟩ := by
    simp [charge, hopen]
  refine ⟨hcharge, fun n => Function.iterate_fixed ?_ n, fun h now' ex hop hbefore => ?_⟩
  · simp [hcharge]
  · rw [processPayment_rejected h now' ex hop hbefore]
    exact ⟨rfl, (handlerRecordFailure_fields h now').1,
      (handlerRecordFailure_fields h now').2⟩

/-- C3 witness: the tripped-at-10, 5-second-recovery client probed at
time 12 rejects unchanged (also under 4 repeated calls), and a concrete
open async handler increments its counter on rejection. -/
theorem open_rejection_client_no_mutation_witness :
    charge exampleOpenClient 12 (fun _ => .status 200 "x") (fun _ => 0) (fun _ => 0) =
      ⟨.errorDict circuitOpenMsg, exampleOpenClient, 0, 0, []⟩ ∧
    (fun st => (charge st 12 (fun _ => .status 200 "x") (fun _ => 0) (fun _ => 0)).state)^[4]
        exampleOpenClient = exampleOpenClient ∧
    (processPayment ⟨5, 60, 2, 100, true⟩ 130 .timedOut).2.1.failure_count = 3 := by
  have h := open_rejection_client_no_mutation exampleOpenClient ⟨5, 5000⟩ 10 12
    (fun _ => .status 200 "x") (fun _ => 0) (fun _ => 0)
    rfl rfl rfl (by norm_num)
  exact ⟨h.1, h.2.1 4,
    (h.2.2 ⟨5, 60, 2, 100, true⟩ 130 .timedOut rfl (by norm_num)).2.1⟩

/-! ### C6 — threshold consecutive failures open the breaker -/

/-- The first `k < threshold` consecutive failures from a fresh CLOSED
breaker leave it CLOSED with counter `k`. -/
theorem recordFailures_below_threshold (s : ClientState) (t : ℕ) (r : ℚ)
    (tms : ℕ → ℚ) (hs : s.circuit_state = .CLOSED) (h0 : s.failure_count = 0)
    (hc : s.circuit_breaker_config = .set ⟨t, r⟩) :
    ∀ k, k < t → recordFailures tms k s = .ok
      { s with failure_count := k,
               last_failure_time :=
                 if k = 0 then s.last_failure_time
                 else .set (some (tms (k - 1))) } := by
  intro k
  induction k with
  | zero =>
    intro _
    cases s
    simp_all [recordFailures]
  | succ k ih =>
    intro hk
    have hrec := ih (Nat.lt_of_succ_lt hk)
    have hcfg : ({ s with failure_count := k,
                          last_failure_time :=
                            if k = 0 then s.last_failure_time
                            else .set (some (tms (k - 1))) } :
        ClientState).circuit_breaker_config = .set ⟨t, r⟩ := by simpa using hc
    rw [show recordFailures tms (k + 1) s =
          (match recordFailures tms k s with
           | .ok s1 => recordFailure s1 (tms k)
           | .error e => .error e) from rfl, hrec]
    show recordFailure _ (tms k) = _
    rw [recordFailure_ok _ ⟨t, r⟩ (tms k) hcfg]
    have hklt : ¬ (k + 1 ≥ t) := by omega
    simp [hs, hklt]

/-- C6: from a CLOSED breaker with zero counted failures and failure
threshold `t ≥ 1`, exactly `t` consecutive `_record_failure` calls with no
intervening success leave the breaker OPEN with trip time `tms (t-1)`, and
the permission check then reports the circuit open (requests rejected) at
any probe time before the recovery timeout has strictly elapsed — in
particular `t = 1` means a single failure opens the breaker. -/
theorem threshold_failures_open_breaker (s : ClientState) (t : ℕ) (r : ℚ)
    (tms : ℕ → ℚ) (now : ℚ)
    (ht : 1 ≤ t) (hs : s.circuit_state = .CLOSED) (h0 : s.failure_count = 0)
    (hc : s.circuit_breaker_config = .set ⟨t, r⟩)
    (htrip : tms (t - 1) ≠ 0) (hnow : now - tms (t - 1) ≤ r / 1000) :
    recordFailures tms t s = .ok
      { s with failure_count := t,
               last_failure_time := .set (some (tms (t - 1))),
               circuit_state := .OPEN } ∧
    isCircuitOpen
      { s with failure_count := t,
               last_failure_time := .set (some (tms (t - 1))),
               circuit_state := .OPEN } now =
      .ok (true,
        { s with failure_count := t,
                 last_failure_time := .set (some (tms (t - 1))),
                 circuit_state := .OPEN }) := by
  obtain ⟨k, rfl⟩ : ∃ k, t = k + 1 := ⟨t - 1, by omega⟩
  have hrec := recordFailures_below_threshold s (k + 1) r tms hs h0 hc k (by omega)
  have hcfg : ({ s with failure_count := k,
                        last_failure_time :=
                          if k = 0 then s.last_failure_time
                          else .set (some (tms (k - 1))) } :
      ClientState).circuit_breaker_config = .set ⟨k + 1, r⟩ := by simpa using hc
  constructor
  · rw [show recordFailures tms (k + 1) s =
          (match recordFailures tms k s with
           | .ok s1 => recordFailure s1 (tms k)
           | .error e => .error e) from rfl, hrec]
    show recordFailure _ (tms k) = _
    rw [recordFailure_ok _ ⟨k + 1, r⟩ (tms k) hcfg]
    simp [hs]
  · exact isCircuitOpen_open_before _ ⟨k + 1, r⟩ (tms k) now rfl rfl
      (by simpa using hc) (by simpa using hnow)

/-- C6 witness: threshold 1 — a single failure at time 100 opens the
breaker of a fresh client, and a probe at time 150 (before the 60-second
recovery window has elapsed) is rejected. -/
theorem threshold_failures_open_breaker_witness :
    recordFailures (fun _ => 100)
        1 { exampleClient with circuit_breaker_config := .set ⟨1, 60000⟩ } = .ok
      { exampleClient with circuit_breaker_config := .set ⟨1, 60000⟩,
                           failure_count := 1,
                           last_failure_time := .set (some 100),
                           circuit_state := .OPEN } ∧
    isCircuitOpen
      { exampleClient with circuit_breaker_config := .set ⟨1, 60000⟩,
                           failure_count := 1,
                           last_failure_time := .set (some 100),
                           circuit_state := .OPEN } 150 =
      .ok (true,
        { exampleClient with circuit_breaker_config := .set ⟨1, 60000⟩,
                             failure_count := 1,
                             last_failure_time := .set (some 100),
                             circuit_state := .OPEN }) :=
  threshold_failures_open_breaker
    { exampleClient with circuit_breaker_config := .set ⟨1, 60000⟩ }
    1 60000 (fun _ => 100) 150
    le_rfl rfl rfl rfl (by norm_num) (by norm_num)

/-! ### C2 — server errors are not retried -/

/-- C2 (counterexample): a fresh client with 3 attempts available receives
a server error (HTTP 500) on its very first attempt.  The claim demands a
retry (attempts remain), but `_make_request` records the failure and
returns the HTTP error dict immediately: exactly 1 transport call, no
sleeps. -/
theorem server_error_not_retried_counterexample :
    charge exampleClient 50 (fun _ => .status 500 "oops") (fun _ => 100) (fun _ => 0) =
      ⟨.errorDict (httpErrorMsg 500 "oops"),
       { exampleClient with failure_count := 1, last_failure_time := .set (some 100) },
       1, 1, []⟩ ∧
    1 < exampleClient.max_retries := by
  constructor
  · decide
  · norm_num [exampleClient]

/-- C2 (amended): an attempt that receives any HTTP response other than
200 or 429 — server errors (5xx) included — records a breaker failure and
makes `_make_request` return the classified HTTP error dict immediately,
with no sleep and no further attempts, regardless of how many attempts
remain.  Only the counted failure and timestamp (and a possible breaker
trip) change. -/
theorem server_error_terminal (outcomes : ℕ → HttpOutcome) (tms jitters : ℕ → ℚ)
    (remaining attempt : ℕ) (s : ClientState) (cfg : BreakerConfig)
    (code : ℕ) (body : String)
    (hc : s.circuit_breaker_config = .set cfg)
    (ho : outcomes attempt = .status code body)
    (h200 : code ≠ 200) (h429 : code ≠ 429) :
    (makeRequestLoop outcomes tms jitters (remaining + 1) attempt s).outcome =
      .errorDict (httpErrorMsg code body) ∧
    (makeRequestLoop outcomes tms jitters (remaining + 1) attempt s).attempts = 1 ∧
    (makeRequestLoop outcomes tms jitters (remaining + 1) attempt s).failuresRecorded = 1 ∧
    (makeRequestLoop outcomes tms jitters (remaining + 1) attempt s).sleeps = [] := by
  have hloop : makeRequestLoop outcomes tms jitters (remaining + 1) attempt s =
      ⟨.errorDict (httpErrorMsg code body),
       { s with failure_count := s.failure_count + 1,
                last_failure_time := .set (some (tms attempt)),
                circuit_state :=
                  if s.failure_count + 1 ≥ cfg.failure_threshold ∧
                      s.circuit_state = .CLOSED then .OPEN
                  else if s.circuit_state = .HALF_OPEN then .OPEN
                  else s.circuit_state },
       1, 1, []⟩ := by
    unfold makeRequestLoop
    rw [ho]
    simp only [h200, h429, if_false, recordFailure_ok s cfg (tms attempt) hc]
  rw [hloop]
  exact ⟨rfl, rfl, rfl, rfl⟩

/-- C2 witness: HTTP 503 on the first of three attempts for a fresh
client is terminal: one attempt, one recorded failure, no sleeps. -/
theorem server_error_terminal_witness :
    (makeRequestLoop (fun _ => .status 503 "unavailable") (fun _ => 100) (fun _ => 0)
        3 0 exampleClient).outcome = .errorDict (httpErrorMsg 503 "unavailable") ∧
    (makeRequestLoop (fun _ => .status 503 "unavailable") (fun _ => 100) (fun _ => 0)
        3 0 exampleClient).attempts = 1 ∧
    (makeRequestLoop (fun _ => .status 503 "unavailable") (fun _ => 100) (fun _ => 0)
        3 0 exampleClient).failuresRecorded = 1 ∧
    (makeRequestLoop (fun _ => .status 503 "unavailable") (fun _ => 100) (fun _ => 0)
        3 0 exampleClient).sleeps = [] :=
  server_error_terminal (fun _ => .status 503 "unavailable") (fun _ => 100) (fun _ => 0)
    2 0 exampleClient ⟨5, 60000⟩ 503 "unavailable" rfl rfl
    (by norm_num) (by norm_num)

/-! ### C5 — rate-limit handling -/

/-- With every attempt rate-limited, the attempt loop sleeps the backoff
delay after each non-final attempt, records no breaker failure, leaves the
state untouched and falls through to the generic max-retries dict. -/
theorem rate_limited_loop (outcomes : ℕ → HttpOutcome) (tms jitters : ℕ → ℚ)
    (h429 : ∀ i, ∃ b, outcomes i = .status 429 b) :
    ∀ (remaining attempt : ℕ) (s : ClientState),
      makeRequestLoop outcomes tms jitters remaining attempt s =
        ⟨.errorDict maxRetriesMsg, s, remaining, 0,
         (List.range (remaining - 1)).map
           (fun k => calculateRetryDelay s (attempt + k) (jitters (attempt + k)))⟩ := by
  intro remaining
  induction remaining with
  | zero =>
    intro attempt s
    simp [makeRequestLoop]
  | succ n ih =>
    intro attempt s
    obtain ⟨b, ho⟩ := h429 attempt
    have hstep : makeRequestLoop outcomes tms jitters (n + 1) attempt s =
        if 1 ≤ n then
          ⟨(makeRequestLoop outcomes tms jitters n (attempt + 1) s).outcome,
           (makeRequestLoop outcomes tms jitters n (attempt + 1) s).state,
           (makeRequestLoop outcomes tms jitters n (attempt + 1) s).attempts + 1,
           (makeRequestLoop outcomes tms jitters n (attempt + 1) s).failuresRecorded,
           calculateRetryDelay s attempt (jitters attempt) ::
             (makeRequestLoop outcomes tms jitters n (attempt + 1) s).sleeps⟩
        else
          ⟨(makeRequestLoop outcomes tms jitters n (attempt + 1) s).outcome,
           (makeRequestLoop outcomes tms jitters n (attempt + 1) s).state,
           (makeRequestLoop outcomes tms jitters n (attempt + 1) s).attempts + 1,
           (makeRequestLoop outcomes tms jitters n (attempt + 1) s).failuresRecorded,
           (makeRequestLoop outcomes tms jitters n (attempt + 1) s).sleeps⟩ := by
      conv_lhs => rw [makeRequestLoop]
      rw [ho]
      norm_num
    rw [hstep, ih (attempt + 1) s]
    rcases Nat.eq_zero_or_pos n with hn | hn
    · subst hn
      simp
    · obtain ⟨m, rfl⟩ : ∃ m, n = m + 1 := ⟨n - 1, by omega⟩
      rw [if_pos (show 1 ≤ m + 1 by omega)]
      refine congrArg (RunResult.mk _ _ _ _) ?_
      simp only [Nat.add_sub_cancel]
      rw [List.range_succ_eq_map, List.map_cons, List.map_map]
      refine congrArg₂ _ (by rw [Nat.add_zero]) ?_
      refine List.map_congr_left fun k _ => ?_
      have hadd : attempt + 1 + k = attempt + (k + 1) := by omega
      simp [Function.comp, hadd]

/-- C5 (counterexample): a fresh client whose three attempts are all
rate-limited (HTTP 429): no breaker failure is ever recorded and the two
non-final attempts sleep the backoff delays, but the final outcome is the
generic "Max retries exceeded" dict — not a rate-limit-specific failure
outcome, contradicting the claim's last part. -/
theorem rate_limit_generic_failure_counterexample :
    charge exampleClient 50 (fun _ => .status 429 "slow") (fun _ => 100) (fun _ => 0) =
      ⟨.errorDict maxRetriesMsg, exampleClient, 3, 0, [2, 4]⟩ := by
  norm_num [charge, isCircuitOpen, makeRequestLoop, recordFailure, calculateRetryDelay,
    exampleClient, maxRetriesMsg]

/-- C5 (amended): a rate-limited attempt records no breaker failure; each
non-final rate-limited attempt sleeps `_calculate_retry_delay(attempt)`
and continues; and when the attempts are exhausted `charge` returns the
generic max-retries failure dict (there is no rate-limit-specific
outcome), with the client state unchanged. -/
theorem rate_limit_retry_and_exhaustion (s : ClientState) (now : ℚ)
    (outcomes : ℕ → HttpOutcome) (tms jitters : ℕ → ℚ)
    (hs : s.circuit_state = .CLOSED)
    (h429 : ∀ i, ∃ b, outcomes i = .status 429 b) :
    charge s now outcomes tms jitters =
      ⟨.errorDict maxRetriesMsg, s, s.max_retries, 0,
       (List.range (s.max_retries - 1)).map
         (fun k => calculateRetryDelay s k (jitters k))⟩ := by
  have hio : isCircuitOpen s now = .ok (false, s) := by simp [isCircuitOpen, hs]
  rw [charge, hio]
  show makeRequestLoop outcomes tms jitters s.max_retries 0 s = _
  rw [rate_limited_loop outcomes tms jitters h429 s.max_retries 0 s]
  simp

/-- C5 witness: the fresh client with zero jitter draws sleeps 2 s then
4 s and ends with the generic max-retries dict after 3 attempts and 0
recorded failures. -/
theorem rate_limit_retry_and_exhaustion_witness :
    charge exampleClient 50 (fun _ => .status 429 "throttled") (fun _ => 200)
        (fun _ => 0) =
      ⟨.errorDict maxRetriesMsg, exampleClient, 3, 0, [2, 4]⟩ := by
  rw [rate_limit_retry_and_exhaustion exampleClient 50 (fun _ => .status 429 "throttled")
    (fun _ => 200) (fun _ => 0) rfl (fun i => ⟨"throttled", rfl⟩)]
  norm_num [exampleClient, calculateRetryDelay, List.range_succ]

/-! ### C1 — faults propagated by `charge` -/

/-- C1 (counterexample): with a loaded configuration and every attempt an
ordinary remote timeout, `charge` does not return a typed outcome: after
recording all three failures it raises `TimeoutError` out of the final
attempt (the source also raises on an exhausted connection error and
re-raises unexpected errors). -/
theorem charge_raises_on_exhausted_timeouts :
    (charge exampleClient 50 (fun _ => .timeout) (fun _ => 100) (fun _ => 0)).outcome =
      .raised .timeoutError ∧
    ((charge exampleClient 50 (fun _ => .timeout) (fun _ => 100) (fun _ => 0)).outcome).isRaised
      = true ∧
    (charge exampleClient 50 (fun _ => .timeout) (fun _ => 100) (fun _ => 0)).attempts = 3 ∧
    (charge exampleClient 50 (fun _ => .timeout) (fun _ => 100) (fun _ => 0)).failuresRecorded
      = 3 := by
  decide

/-- Under all-HTTP-response transport outcomes and an assigned breaker
config, the attempt loop never raises. -/
theorem makeRequestLoop_no_raise (outcomes : ℕ → HttpOutcome) (tms jitters : ℕ → ℚ)
    (hstat : ∀ i, (outcomes i).isStatus = true) :
    ∀ (remaining attempt : ℕ) (s : ClientState) (cfg : BreakerConfig),
      s.circuit_breaker_config = .set cfg →
      ((makeRequestLoop outcomes tms jitters remaining attempt s).outcome).isRaised
        = false := by
  intro remaining
  induction remaining with
  | zero =>
    intro attempt s cfg _
    simp [makeRequestLoop, ChargeOutcome.isRaised]
  | succ n ih =>
    intro attempt s cfg hc
    cases houtcome : outcomes attempt with
    | status code body =>
      by_cases h200 : code = 200
      · unfold makeRequestLoop
        rw [houtcome]
        simp [h200, ChargeOutcome.isRaised]
      · by_cases h429 : code = 429
        · unfold makeRequestLoop
          rw [houtcome]
          simp only [h200, h429, if_false, if_true, ite_true, ite_false]
          split
          · simp [ChargeOutcome.isRaised]
          · split <;> simpa using ih (attempt + 1) s cfg hc
        · unfold makeRequestLoop
          rw [houtcome]
          simp only [h200, h429, if_false, recordFailure_ok s cfg (tms attempt) hc]
          simp [ChargeOutcome.isRaised]
    | timeout => exact absurd (hstat attempt) (by simp [houtcome, HttpOutcome.isStatus])
    | connError => exact absurd (hstat attempt) (by simp [houtcome, HttpOutcome.isStatus])
    | otherExn => exact absurd (hstat attempt) (by simp [houtcome, HttpOutcome.isStatus])

/-- With both optional attributes assigned, the permission check completes
without raising and preserves the breaker config. -/
theorem isCircuitOpen_ok_of_assigned (s : ClientState) (cfg : BreakerConfig)
    (v : Option ℚ) (now : ℚ)
    (hc : s.circuit_breaker_config = .set cfg)
    (hl : s.last_failure_time = .set v) :
    ∃ b s1, isCircuitOpen s now = .ok (b, s1) ∧
      s1.circuit_breaker_config = .set cfg := by
  cases hcs : s.circuit_state with
  | CLOSED => exact ⟨false, s, by simp [isCircuitOpen, hcs], hc⟩
  | HALF_OPEN => exact ⟨false, s, by simp [isCircuitOpen, hcs], hc⟩
  | OPEN =>
    cases v with
    | none => exact ⟨true, s, by simp [isCircuitOpen, hcs, hl], hc⟩
    | some t =>
      by_cases ht : t = 0
      · exact ⟨true, s, by simp [isCircuitOpen, hcs, hl, ht], hc⟩
      · by_cases hr : now - t > cfg.recovery_timeout_ms / 1000
        · exact ⟨false, { s with circuit_state := .HALF_OPEN },
            by simp [isCircuitOpen, hcs, hl, hc, ht, hr], by simpa using hc⟩
        · exact ⟨true, s, by simp [isCircuitOpen, hcs, hl, hc, ht, hr], hc⟩

/-- C1 (amended): for a client whose breaker config and last-failure-time
attributes are assigned (the loaded-config constructor branch), `charge`
never raises when every transport attempt yields an HTTP response of any
status — all such runs end in a typed success or error dict.  The
propagated faults are confined to: `TimeoutError` when the final attempt
times out, a connection exception when the final attempt hits a
connection error, re-raised unexpected transport errors, and the
`AttributeError` of the fallback-constructed instance — not only
pre-network programming-contract violations. -/
theorem charge_typed_outcome_for_http_responses (s : ClientState) (now : ℚ)
    (outcomes : ℕ → HttpOutcome) (tms jitters : ℕ → ℚ)
    (cfg : BreakerConfig) (v : Option ℚ)
    (hc : s.circuit_breaker_config = .set cfg)
    (hl : s.last_failure_time = .set v)
    (hstat : ∀ i, (outcomes i).isStatus = true) :
    ((charge s now outcomes tms jitters).outcome).isRaised = false := by
  obtain ⟨b, s1, hio, hc1⟩ := isCircuitOpen_ok_of_assigned s cfg v now hc hl
  rw [charge, hio]
  cases b with
  | true => simp [ChargeOutcome.isRaised]
  | false =>
    simpa using makeRequestLoop_no_raise outcomes tms jitters hstat
      s1.max_retries 0 s1 cfg hc1

/-- C1 witness: a fresh client whose attempts see HTTP 500, 429 and 200
responses in turn: `charge` delivers a typed outcome, nothing is raised. -/
theorem charge_typed_outcome_for_http_responses_witness :
    ((charge exampleClient 50
        (fun i => if i = 0 then .status 500 "e" else if i = 1 then .status 429 "r"
                  else .status 200 "okbody")
        (fun _ => 100) (fun _ => 0)).outcome).isRaised = false :=
  charge_typed_outcome_for_http_responses exampleClient 50
    (fun i => if i = 0 then .status 500 "e" else if i = 1 then .status 429 "r"
              else .status 200 "okbody")
    (fun _ => 100) (fun _ => 0) ⟨5, 60000⟩ none rfl rfl
    (fun i => by by_cases h0 : i = 0 <;> by_cases h1 : i = 1 <;>
      simp [h0, h1, HttpOutcome.isStatus])

end PaymentRepo

